import Mathlib

/-!
Verification development for the Track Up map-orientation scripts
(`js/track_up_mode.js`, `js/simple_track_up.js`).

IEEE doubles are idealised as real numbers; `null`-able fields of the
geolocation API are modelled with `Option`.  A `NaN` heading or speed is not
representable in `ℝ`; since the scripts guard headings with `isNaN` and the
checks involved treat `NaN` like an invalid value, samples carry
`Option ℝ` where `none` stands for `null`/invalid.
-/

open Real

noncomputable section

namespace TrackUpModel

/-- Truncation toward zero, as performed by the JS `%` operator on the
quotient: for a nonnegative argument it is the floor, for a negative one
the ceiling. -/
def jsTrunc (x : ℝ) : ℤ :=
  if 0 ≤ x then ⌊x⌋ else ⌈x⌉

/-- The JS remainder operator `a % b`: `a - b * trunc (a / b)` (sign of the
dividend).  Both scripts only apply it with a nonnegative dividend and the
divisor `360`, where it agrees with the mathematical floor modulus. -/
def jsMod (a b : ℝ) : ℝ := a - b * (jsTrunc (a / b) : ℝ)

/-- Mathematical floor modulus, used to state the spec's "normalized into
[0, 360)". -/
def mathMod (a b : ℝ) : ℝ := a - b * (⌊a / b⌋ : ℝ)

/-- JS `Math.atan2 y x`, written over `ℝ` (there is no `-0`, so the JS
branches for negative zero collapse into the plain zero cases). -/
def atan2 (y x : ℝ) : ℝ :=
  if 0 < x then arctan (y / x)
  else if x < 0 then
    (if 0 ≤ y then arctan (y / x) + π else arctan (y / x) - π)
  else
    (if 0 < y then π / 2 else if y < 0 then -(π / 2) else 0)

theorem jsTrunc_of_nonneg {x : ℝ} (hx : 0 ≤ x) : jsTrunc x = ⌊x⌋ := by
  unfold jsTrunc
  exact if_pos hx

theorem mathMod_nonneg (a : ℝ) {b : ℝ} (hb : 0 < b) : 0 ≤ mathMod a b := by
  unfold mathMod
  have h1 : (⌊a / b⌋ : ℝ) ≤ a / b := Int.floor_le _
  have h2 : b * (a / b) = a := by field_simp
  nlinarith [mul_le_mul_of_nonneg_left h1 (le_of_lt hb)]

theorem mathMod_lt (a : ℝ) {b : ℝ} (hb : 0 < b) : mathMod a b < b := by
  unfold mathMod
  have h1 : a / b < (⌊a / b⌋ : ℝ) + 1 := Int.lt_floor_add_one _
  have h2 : b * (a / b) = a := by field_simp
  nlinarith [mul_lt_mul_of_pos_left h1 hb]

theorem jsMod_eq_mathMod {a b : ℝ} (ha : 0 ≤ a) (hb : 0 < b) :
    jsMod a b = mathMod a b := by
  unfold jsMod mathMod
  rw [jsTrunc_of_nonneg (div_nonneg ha (le_of_lt hb))]

theorem mathMod_add_right (a : ℝ) {b : ℝ} (hb : b ≠ 0) :
    mathMod (a + b) b = mathMod a b := by
  unfold mathMod
  have h : (a + b) / b = a / b + 1 := by field_simp
  rw [h, Int.floor_add_one]
  push_cast
  ring

/-- The range of `Math.atan2` is `(-π, π]`. -/
theorem atan2_mem_Ioc (y x : ℝ) : -π < atan2 y x ∧ atan2 y x ≤ π := by
  unfold atan2
  have hpi := pi_pos
  have h1 : -(π / 2) < arctan (y / x) := neg_pi_div_two_lt_arctan _
  have h2 : arctan (y / x) < π / 2 := arctan_lt_pi_div_two _
  split_ifs with hx hx' hy hy1 hy2
  · constructor <;> nlinarith
  · have hyx : y / x ≤ 0 := div_nonpos_of_nonneg_of_nonpos hy (le_of_lt hx')
    have h3 : arctan (y / x) ≤ 0 := by
      have := arctan_strictMono.monotone hyx
      simpa [arctan_zero] using this
    constructor <;> nlinarith
  · have hy' : y < 0 := lt_of_not_le hy
    have hyx : 0 < y / x := div_pos_of_neg_of_neg hy' hx'
    have h3 : 0 < arctan (y / x) := by
      have := arctan_strictMono hyx
      simpa [arctan_zero] using this
    constructor <;> nlinarith
  · constructor <;> nlinarith
  · constructor <;> nlinarith
  · constructor <;> nlinarith

/-- Converting `Math.atan2` to degrees lands in `(-180, 180]`. -/
theorem atan2_deg_mem (y x : ℝ) :
    -180 < atan2 y x * 180 / π ∧ atan2 y x * 180 / π ≤ 180 := by
  obtain ⟨h1, h2⟩ := atan2_mem_Ioc y x
  have hpi := pi_pos
  have hne : π ≠ 0 := ne_of_gt hpi
  have hpos : (0 : ℝ) < 180 / π := by positivity
  constructor
  · rw [mul_div_assoc]
    have h3 : -π * (180 / π) < atan2 y x * (180 / π) :=
      mul_lt_mul_of_pos_right h1 hpos
    have h4 : -π * (180 / π) = -180 := by field_simp; ring
    linarith
  · rw [mul_div_assoc]
    have h3 : atan2 y x * (180 / π) ≤ π * (180 / π) :=
      mul_le_mul_of_nonneg_right h2 (le_of_lt hpos)
    have h4 : π * (180 / π) = 180 := by field_simp
    linarith

/-- The normalisation step shared by both scripts, `(θ + 360) % 360` with the
JS remainder, agrees with the mathematical modulus of `θ` whenever
`θ ≥ -360`. -/
theorem jsNormalize_eq_mathMod {θ : ℝ} (h : -360 ≤ θ) :
    jsMod (θ + 360) 360 = mathMod θ 360 := by
  rw [jsMod_eq_mathMod (by linarith) (by norm_num),
    mathMod_add_right θ (by norm_num)]

/-!
Bearing formulas.

`trackUpBearing` is the pure computation of `track_up_mode.js` lines 109-115
(Method 2 of its position callback): the spherical bearing formula applied to
degree coordinates, converted back to degrees and normalized with
`(bearing + 360) % 360`.  Within the callback that branch is unreachable
because reading the undeclared `lastPosition` throws first (see
`positionStep` below), but the formula itself is what the source text
computes.

`simpleBearing` is the computation of `simple_track_up.js` lines 85-86: a
flat `Math.atan2(deltaLng, deltaLat)` on raw coordinate deltas with the same
normalisation; note there is no spherical projection of the deltas.
-/

/-- Bearing of `track_up_mode.js` (Method 2), from previous coordinates
`(lat1, lng1)` to current coordinates `(lat2, lng2)`, all in degrees. -/
def trackUpBearing (lat1 lng1 lat2 lng2 : ℝ) : ℝ :=
  jsMod
    (atan2
      (Real.sin ((lng2 - lng1) * π / 180) * Real.cos (lat2 * π / 180))
      (Real.cos (lat1 * π / 180) * Real.sin (lat2 * π / 180) -
        Real.sin (lat1 * π / 180) * Real.cos (lat2 * π / 180) *
          Real.cos ((lng2 - lng1) * π / 180)) * 180 / π + 360) 360

/-- Bearing of `simple_track_up.js` (Method 2): flat `atan2` of the raw
longitude/latitude deltas, in degrees, normalized into `[0, 360)`. -/
def simpleBearing (lat1 lng1 lat2 lng2 : ℝ) : ℝ :=
  jsMod (atan2 (lng2 - lng1) (lat2 - lat1) * 180 / π + 360) 360

/-- Degrees-to-radians conversion used when stating the spec formula. -/
def toRad (d : ℝ) : ℝ := d * π / 180

/-- Modelled from the spec: "compute a bearing from the vector between
previous and current coordinates using a spherical bearing formula (atan2 of
projected longitude/latitude deltas), normalized into [0, 360)" — the
standard great-circle initial bearing
`atan2 (sin Δλ · cos φ₂) (cos φ₁ · sin φ₂ − sin φ₁ · cos φ₂ · cos Δλ)`
over radian coordinates, converted to degrees and reduced into `[0, 360)`
with the mathematical modulus. -/
def sphericalBearingSpec (lat1 lng1 lat2 lng2 : ℝ) : ℝ :=
  mathMod
    (atan2
      (Real.sin (toRad lng2 - toRad lng1) * Real.cos (toRad lat2))
      (Real.cos (toRad lat1) * Real.sin (toRad lat2) -
        Real.sin (toRad lat1) * Real.cos (toRad lat2) *
          Real.cos (toRad lng2 - toRad lng1)) * 180 / π) 360

theorem trackUpBearing_eq_spec (lat1 lng1 lat2 lng2 : ℝ) :
    trackUpBearing lat1 lng1 lat2 lng2 =
      sphericalBearingSpec lat1 lng1 lat2 lng2 := by
  unfold trackUpBearing sphericalBearingSpec toRad
  have harg : (lng2 - lng1) * π / 180 = lng2 * π / 180 - lng1 * π / 180 := by
    ring
  rw [harg]
  exact jsNormalize_eq_mathMod (by linarith [(atan2_deg_mem
    (Real.sin (lng2 * π / 180 - lng1 * π / 180) * Real.cos (lat2 * π / 180))
    (Real.cos (lat1 * π / 180) * Real.sin (lat2 * π / 180) -
      Real.sin (lat1 * π / 180) * Real.cos (lat2 * π / 180) *
        Real.cos (lng2 * π / 180 - lng1 * π / 180))).1])

theorem sphericalBearingSpec_mem (lat1 lng1 lat2 lng2 : ℝ) :
    0 ≤ sphericalBearingSpec lat1 lng1 lat2 lng2 ∧
      sphericalBearingSpec lat1 lng1 lat2 lng2 < 360 := by
  unfold sphericalBearingSpec
  exact ⟨mathMod_nonneg _ (by norm_num), mathMod_lt _ (by norm_num)⟩

theorem simpleBearing_mem (lat1 lng1 lat2 lng2 : ℝ) :
    0 ≤ simpleBearing lat1 lng1 lat2 lng2 ∧
      simpleBearing lat1 lng1 lat2 lng2 < 360 := by
  unfold simpleBearing
  rw [jsNormalize_eq_mathMod
    (by linarith [(atan2_deg_mem (lng2 - lng1) (lat2 - lat1)).1])]
  exact ⟨mathMod_nonneg _ (by norm_num), mathMod_lt _ (by norm_num)⟩

/-!
Presentation model.

Both scripts mutate element styles through CSS transform strings of the two
shapes `none` and `rotate(a deg) scale(s)`; `Css` models exactly those
values.  Presentation state carries one slot per selector the scripts
address; the zoom control and the attribution are Leaflet controls, so in
the Leaflet DOM they also match the generic `.leaflet-control` selector used
by `updateUIElementsRotation`, which the reset models below rely on.  The
`markerIcon` slot stands for a plain `.leaflet-marker-icon` element carrying
no other class, and `customIndicator` for a `.custom-location-indicator`
element.  Setting `transform: none !important` through the `style` property
(as the protection code does) is modelled as storing `none`; real browsers
reject such a value, which would only make the reset weaker than modelled.
-/

/-- A CSS transform value written by the scripts: either `none` or
`rotate(rotateDeg deg) scale(scale)`. -/
inductive Css where
  | none : Css
  | rs (rotateDeg scale : ℝ) : Css

/-- Composition of two transforms as plane maps: rotations and uniform
scalings commute, so composing `rotate(a) scale(s)` with `rotate(b) scale(t)`
gives `rotate(a+b) scale(s*t)`. -/
def Css.comp : Css → Css → Css
  | Css.none, t => t
  | t, Css.none => t
  | Css.rs a s, Css.rs b t => Css.rs (a + b) (s * t)

/-- A transform value denotes the identity map. -/
def Css.isId : Css → Prop
  | Css.none => True
  | Css.rs a s => a = 0 ∧ s = 1

/-- Presentation slots touched by `track_up_mode.js`. -/
structure TUPres where
  mapContainer : Css
  zoomControl : Css
  attribution : Css
  customIndicator : Css
  markerIcon : Css
  popup : Css

/-- Status strings pushed to the `track-up-status` sink (the two heading
texts carry the displayed angle; formatting with `toFixed`/`Math.round` is
not modelled). -/
inductive Status where
  | blank : Status
  | trackUpActive : Status
  | northUp : Status
  | gpsError : Status
  | headingDeg (h : ℝ) : Status
  | starting : Status
  | noHeadingData : Status
  | calcDeg (h : ℝ) : Status

/-- A geolocation position sample: `coords.latitude`, `coords.longitude`,
`coords.heading` and `coords.speed`, the latter two nullable. -/
structure Coords where
  latitude : ℝ
  longitude : ℝ
  heading : Option ℝ
  speed : Option ℝ

/-- Module state of `track_up_mode.js` (the declared closure variables that
the modelled handlers read or write, plus the presentation). -/
structure TUState where
  trackUpMode : Bool
  mapRotationEnabled : Bool
  currentHeading : ℝ
  lastValidHeading : ℝ
  status : Status
  pres : TUPres

/-- Point in the position callback of `track_up_mode.js` at which reading or
assigning the undeclared variable `lastPosition` throws a `ReferenceError`
under strict mode: either the read `if (lastPosition && ...)` guarding
Method 2 (line 102), or the final `lastPosition = {...}` assignment
(lines 137-141). -/
inductive JsErr where
  | method2Read : JsErr
  | lastPosAssign : JsErr

/-- `updateMapRotation` (lines 169-224): when Track Up mode is on, rotate
the map container by the negated heading with scale `1.1` and counter-rotate
the four listed selectors by the heading with scale `1/1.1`; otherwise do
nothing.  The `window.leafletMap` container is assumed present. -/
def updateMapRotation (s : TUState) : TUState :=
  cond s.trackUpMode
    { s with pres :=
      { mapContainer := Css.rs (-s.currentHeading) 1.1
        zoomControl := Css.rs s.currentHeading (1 / 1.1)
        attribution := Css.rs s.currentHeading (1 / 1.1)
        customIndicator := Css.rs s.currentHeading (1 / 1.1)
        markerIcon := Css.rs s.currentHeading (1 / 1.1)
        popup := s.pres.popup } }
    s

/-- `updateUIElementsRotation(counterRotation, counterScale)`
(lines 226-281): write `rotate(r) scale(c)` to `.leaflet-control` and
`.leaflet-popup` elements, then force custom location indicators to `none`.
Plain marker icons match neither selector and are untouched. -/
def updateUIElements (r c : ℝ) (p : TUPres) : TUPres :=
  { p with
    zoomControl := Css.rs r c
    attribution := Css.rs r c
    popup := Css.rs r c
    customIndicator := Css.none }

/-- `resetMapRotation` of `track_up_mode.js` (lines 367-392): set the map
container transform to `none`, then `updateUIElementsRotation(0, 1)`. -/
def resetTUPres (p : TUPres) : TUPres :=
  updateUIElements 0 1 { p with mapContainer := Css.none }

/-- State-level wrapper of `resetMapRotation`. -/
def resetRotationTU (s : TUState) : TUState :=
  { s with pres := resetTUPres s.pres }

/-- `updateTrackUpStatus` (lines 394-411), status sink write. -/
def setStatus (s : TUState) (st : Status) : TUState := { s with status := st }

/-- Jitter gate and commit, `track_up_mode.js` lines 126-134: commit
`newHeading` only when it differs from the committed heading by more than 3
degrees, then (in Track Up mode) reapply the rotation and report the
heading. -/
def commitGate (s : TUState) (newHeading : ℝ) : TUState :=
  if 3 < |newHeading - s.currentHeading| then
    let s' := { s with currentHeading := newHeading }
    cond s'.trackUpMode
      (setStatus (updateMapRotation s') (Status.headingDeg s'.currentHeading))
      s'
  else s

/-- The position (success) callback of `track_up_mode.js`, lines 86-142.
With a valid numeric heading, Method 1 runs (adopt the heading when speed is
`null` or above `0.3`, cache it as last valid), then the jitter gate, and
then the final assignment to the undeclared `lastPosition` raises a
`ReferenceError` — after the state mutations.  Without a valid heading, the
`else` branch immediately reads the undeclared `lastPosition` and raises a
`ReferenceError` before any mutation, so Methods 2 and 3 never execute. -/
def positionStep (s : TUState) (c : Coords) : TUState × Option JsErr :=
  match c.heading with
  | Option.none => (s, some JsErr.method2Read)
  | some h =>
      match c.speed with
      | Option.none =>
          (commitGate { s with lastValidHeading := h } h,
            some JsErr.lastPosAssign)
      | some sp =>
          if 0.3 < sp then
            (commitGate { s with lastValidHeading := h } h,
              some JsErr.lastPosAssign)
          else
            (commitGate s s.currentHeading, some JsErr.lastPosAssign)

/-- The geolocation error callback of `track_up_mode.js` (lines 143-146):
report a GPS error on the status sink and touch nothing else. -/
def errorStep (s : TUState) : TUState := setStatus s Status.gpsError

/-- The `deviceorientation` listener of `track_up_mode.js` (lines 151-164):
when Track Up mode is on, the event carries an `alpha` and the committed
heading equals `0`, convert the compass angle to a bearing with
`(360 - alpha) % 360`, commit it and reapply the rotation. -/
def compassStep (s : TUState) (alpha : Option ℝ) : TUState :=
  match alpha with
  | Option.none => s
  | some a =>
      if s.trackUpMode ∧ s.currentHeading = 0 then
        updateMapRotation { s with currentHeading := jsMod (360 - a) 360 }
      else s

/-- The toggle listener plus `updateTrackUpMode` (lines 54-58 and 331-365):
record the checkbox state; on enable report `Track Up Active`, raise the
rotation-enabled flag and apply the rotation; on disable report `North Up`,
lower the flag and reset the rotation.  The 1 Hz refresh interval only
re-runs `updateMapRotation`, which is idempotent on the state, so it is not
modelled separately. -/
def toggleStep (s : TUState) (checked : Bool) : TUState :=
  cond checked
    (updateMapRotation
      (setStatus { s with trackUpMode := true, mapRotationEnabled := true }
        Status.trackUpActive))
    (resetRotationTU
      (setStatus { s with trackUpMode := false, mapRotationEnabled := false }
        Status.northUp))

/-- External events delivered to the scripts. -/
inductive Event where
  | pos (c : Coords) : Event
  | posErr : Event
  | orient (alpha : Option ℝ) : Event
  | toggle (checked : Bool) : Event

/-- One event step of `track_up_mode.js`; the `ReferenceError` of a position
callback propagates to the event loop after the mutations, so the state
component is what persists. -/
def tuStep (s : TUState) : Event → TUState
  | Event.pos c => (positionStep s c).1
  | Event.posErr => errorStep s
  | Event.orient a => compassStep s a
  | Event.toggle b => toggleStep s b

/-- Pristine presentation: no transform was ever applied. -/
def initPres : TUPres :=
  { mapContainer := Css.none, zoomControl := Css.none, attribution := Css.none
    customIndicator := Css.none, markerIcon := Css.none, popup := Css.none }

/-- Initial module state of `track_up_mode.js` (lines 5-12). -/
def initTU : TUState :=
  { trackUpMode := false, mapRotationEnabled := false, currentHeading := 0
    lastValidHeading := 0, status := Status.blank, pres := initPres }

/-- Run of `track_up_mode.js` over an event sequence. -/
def runTU (evs : List Event) : TUState := evs.foldl tuStep initTU

/-!
The overlapping implementation in `simple_track_up.js`.
-/

/-- Presentation slots touched by `simple_track_up.js`: the map container
and the two control selectors it rotates and resets. -/
structure SPres where
  mapContainer : Css
  zoomControl : Css
  attribution : Css

/-- Module state of `simple_track_up.js` (lines 9-12 plus presentation). -/
structure SState where
  trackUpEnabled : Bool
  currentHeading : ℝ
  lastKnownPosition : Option (ℝ × ℝ)
  status : Status
  pres : SPres

/-- `updateStatus` of `simple_track_up.js` (lines 188-193). -/
def setStatusS (s : SState) (st : Status) : SState := { s with status := st }

/-- `rotateMap` (lines 133-166): when enabled, rotate the container by the
negated heading with scale `1.5` and counter-rotate the zoom and attribution
controls by the heading with scale `1/1.5`. -/
def rotateMapS (s : SState) : SState :=
  cond s.trackUpEnabled
    { s with pres :=
      { mapContainer := Css.rs (-s.currentHeading) 1.5
        zoomControl := Css.rs s.currentHeading (1 / 1.5)
        attribution := Css.rs s.currentHeading (1 / 1.5) } }
    s

/-- `resetMapRotation` of `simple_track_up.js` (lines 168-186): container
and both control selectors back to `none`. -/
def resetSPres : SPres :=
  { mapContainer := Css.none, zoomControl := Css.none, attribution := Css.none }

/-- State-level wrapper of the simple reset. -/
def resetRotationS (s : SState) : SState := { s with pres := resetSPres }

/-- The position (success) callback of `simple_track_up.js` (lines 64-103).
Method 1: with a valid numeric heading and speed `null` or above `0.5`,
commit it, rotate, and report it — with no jitter gate.  Method 2: without a
valid heading, if a previous position is stored and speed is truthy and
above `1.0`, and the movement is significant, commit the flat bearing;
otherwise report `No heading data`.  The previous position is always stored
at the end (the variable is properly declared here). -/
def sPositionStep (s : SState) (c : Coords) : SState :=
  let s1 :=
    match c.heading with
    | some h =>
        match c.speed with
        | Option.none =>
            setStatusS (rotateMapS { s with currentHeading := h })
              (Status.headingDeg h)
        | some sp =>
            if 0.5 < sp then
              setStatusS (rotateMapS { s with currentHeading := h })
                (Status.headingDeg h)
            else s
    | Option.none =>
        match s.lastKnownPosition, c.speed with
        | some lp, some sp =>
            if 1 < sp then
              if 0.0001 < |c.latitude - lp.1| ∨ 0.0001 < |c.longitude - lp.2|
              then
                setStatusS
                  (rotateMapS
                    { s with
                      currentHeading :=
                        simpleBearing lp.1 lp.2 c.latitude c.longitude })
                  (Status.calcDeg
                    (simpleBearing lp.1 lp.2 c.latitude c.longitude))
              else s
            else setStatusS s Status.noHeadingData
        | _, _ => setStatusS s Status.noHeadingData
  { s1 with lastKnownPosition := some (c.latitude, c.longitude) }

/-- The geolocation error callback of `simple_track_up.js` (lines 104-107). -/
def sErrorStep (s : SState) : SState := setStatusS s Status.gpsError

/-- The toggle listener (lines 39-48) with `startTrackUp`/`stopTrackUp`:
enabling reports `Starting...` and registers the watch; disabling cancels
the watch, resets the rotation and reports `North Up`. -/
def sToggleStep (s : SState) (checked : Bool) : SState :=
  cond checked
    (setStatusS { s with trackUpEnabled := true } Status.starting)
    (setStatusS (resetRotationS { s with trackUpEnabled := false })
      Status.northUp)

/-- One event step of `simple_track_up.js`; it registers no
`deviceorientation` listener, so orientation events leave it unchanged. -/
def sStep (s : SState) : Event → SState
  | Event.pos c => sPositionStep s c
  | Event.posErr => sErrorStep s
  | Event.orient _ => s
  | Event.toggle b => sToggleStep s b

/-- Pristine presentation of the simple script. -/
def initSPres : SPres :=
  { mapContainer := Css.none, zoomControl := Css.none, attribution := Css.none }

/-- Initial module state of `simple_track_up.js` (lines 9-12). -/
def initS : SState :=
  { trackUpEnabled := false, currentHeading := 0, lastKnownPosition := Option.none
    status := Status.blank, pres := initSPres }

/-- Run of `simple_track_up.js` over an event sequence. -/
def runS (evs : List Event) : SState := evs.foldl sStep initS

/-!
Helper lemmas about the jitter gate of `track_up_mode.js`.
-/

theorem commitGate_lastValid (s : TUState) (nh : ℝ) :
    (commitGate s nh).lastValidHeading = s.lastValidHeading := by
  unfold commitGate updateMapRotation setStatus
  split_ifs with hgate
  · cases s.trackUpMode <;> rfl
  · rfl

theorem commitGate_commit (s : TUState) (nh : ℝ)
    (hg : 3 < |nh - s.currentHeading|) :
    (commitGate s nh).currentHeading = nh := by
  unfold commitGate updateMapRotation setStatus
  rw [if_pos hg]
  cases s.trackUpMode <;> rfl

theorem commitGate_keep (s : TUState) (nh : ℝ)
    (hg : ¬ 3 < |nh - s.currentHeading|) :
    (commitGate s nh).currentHeading = s.currentHeading := by
  unfold commitGate
  rw [if_neg hg]

/-- Claim C1 (amended): the bearing computed by `track_up_mode.js` from
`(lat1, lng1)` to `(lat2, lng2)` equals the spherical bearing formula of the
spec exactly and lies in `[0, 360)`; the bearing computed by
`simple_track_up.js` also lies in `[0, 360)` but is a flat (unprojected)
`atan2` of the raw coordinate deltas, which does not match the spherical
formula in general. -/
theorem bearing_spec_correspondence (lat1 lng1 lat2 lng2 : ℝ) :
    trackUpBearing lat1 lng1 lat2 lng2 =
        sphericalBearingSpec lat1 lng1 lat2 lng2 ∧
      0 ≤ trackUpBearing lat1 lng1 lat2 lng2 ∧
      trackUpBearing lat1 lng1 lat2 lng2 < 360 ∧
      0 ≤ simpleBearing lat1 lng1 lat2 lng2 ∧
      simpleBearing lat1 lng1 lat2 lng2 < 360 := by
  refine ⟨trackUpBearing_eq_spec lat1 lng1 lat2 lng2, ?_, ?_,
    (simpleBearing_mem lat1 lng1 lat2 lng2).1,
    (simpleBearing_mem lat1 lng1 lat2 lng2).2⟩
  · rw [trackUpBearing_eq_spec]
    exact (sphericalBearingSpec_mem lat1 lng1 lat2 lng2).1
  · rw [trackUpBearing_eq_spec]
    exact (sphericalBearingSpec_mem lat1 lng1 lat2 lng2).2

theorem atan2_of_pos_pos_eq {y x : ℝ} (hx : 0 < x) :
    atan2 y x = arctan (y / x) := by
  unfold atan2
  rw [if_pos hx]

/-- Claim C1 counterexample: with a stored previous position `(0, 0)`, a
sample at `(90, 90)` without a GPS heading and with speed `2` (above the
movement threshold and with significant movement), `simple_track_up.js`
commits the flat bearing `45°`, while the spherical bearing formula gives
`0°` — a `45°` discrepancy, far beyond floating-point tolerance. -/
theorem simple_bearing_flat_counterexample :
    (sPositionStep
        { trackUpEnabled := true, currentHeading := 0,
          lastKnownPosition := some (0, 0), status := Status.blank,
          pres := initSPres }
        { latitude := 90, longitude := 90, heading := Option.none,
          speed := some 2 }).currentHeading = 45 ∧
      sphericalBearingSpec 0 0 90 90 = 0 ∧
      (3 : ℝ) < |45 - sphericalBearingSpec 0 0 90 90| := by
  have hpi : π ≠ 0 := pi_ne_zero
  have hbear : simpleBearing 0 0 90 90 = 45 := by
    unfold simpleBearing
    have h1 : atan2 ((90 : ℝ) - 0) ((90 : ℝ) - 0) = π / 4 := by
      rw [atan2_of_pos_pos_eq (by norm_num : (0 : ℝ) < 90 - 0)]
      norm_num [arctan_one]
    rw [h1]
    have h2 : π / 4 * 180 / π + 360 = 405 := by
      field_simp
      ring
    rw [h2]
    unfold jsMod
    rw [jsTrunc_of_nonneg (by norm_num : (0 : ℝ) ≤ 405 / 360)]
    have h3 : ⌊(405 : ℝ) / 360⌋ = 1 := by
      rw [Int.floor_eq_iff]
      constructor <;> norm_num
    rw [h3]
    norm_num
  have hspec : sphericalBearingSpec 0 0 90 90 = 0 := by
    unfold sphericalBearingSpec toRad
    have e1 : (90 : ℝ) * π / 180 - 0 * π / 180 = π / 2 := by ring
    have e2 : (90 : ℝ) * π / 180 = π / 2 := by ring
    have e3 : (0 : ℝ) * π / 180 = 0 := by ring
    rw [e1, e2, e3]
    rw [Real.sin_pi_div_two, Real.cos_pi_div_two, Real.cos_zero,
      Real.sin_zero]
    have h4 : atan2 ((1 : ℝ) * 0) (1 * 1 - 0 * 0 * 0) = 0 := by
      rw [show ((1 : ℝ) * 0) = 0 by ring, show ((1 : ℝ) * 1 - 0 * 0 * 0) = 1 by ring]
      rw [atan2_of_pos_pos_eq (by norm_num : (0 : ℝ) < 1)]
      norm_num [arctan_zero]
    rw [h4]
    unfold mathMod
    norm_num
  refine ⟨?_, hspec, ?_⟩
  · have habs : (0.0001 : ℝ) < |(90 : ℝ) - ((0 : ℝ), (0 : ℝ)).1| := by
      rw [show (90 : ℝ) - ((0 : ℝ), (0 : ℝ)).1 = 90 by norm_num,
        abs_of_nonneg (by norm_num : (0 : ℝ) ≤ 90)]
      norm_num
    dsimp only [sPositionStep, setStatusS, rotateMapS]
    rw [if_pos (by norm_num : (1 : ℝ) < 2), if_pos (Or.inl habs)]
    exact hbear
  · rw [hspec]
    rw [show (45 : ℝ) - 0 = 45 by norm_num,
      abs_of_nonneg (by norm_num : (0 : ℝ) ≤ 45)]
    norm_num

/-- Claim C2: when a sample carries a valid numeric heading and its speed is
unknown (`null`) or above the movement threshold, `track_up_mode.js` adopts
the heading, caches it as the last valid heading, and commits it once past
the 3-degree jitter gate (otherwise the committed heading is retained);
under the same conditions with its own threshold `0.5`, `simple_track_up.js`
commits the heading directly. -/
theorem gps_heading_adoption (s : TUState) (c : Coords) (h : ℝ)
    (hh : c.heading = some h)
    (hs : c.speed = Option.none ∨ ∃ sp, c.speed = some sp ∧ (0.3 : ℝ) < sp) :
    ((positionStep s c).1.lastValidHeading = h ∧
        (3 < |h - s.currentHeading| →
          (positionStep s c).1.currentHeading = h) ∧
        (¬ 3 < |h - s.currentHeading| →
          (positionStep s c).1.currentHeading = s.currentHeading)) ∧
      ∀ t : SState,
        (c.speed = Option.none ∨ ∃ sp, c.speed = some sp ∧ (0.5 : ℝ) < sp) →
          (sPositionStep t c).currentHeading = h := by
  obtain ⟨lat, lng, hd, spd⟩ := c
  have hh' : hd = some h := hh
  subst hh'
  have hstep :
      (positionStep s ⟨lat, lng, some h, spd⟩).1 =
        commitGate { s with lastValidHeading := h } h := by
    rcases hs with hnone | ⟨sp, hsp, hlt⟩
    · have h0 : spd = Option.none := hnone
      subst h0
      rfl
    · have h0 : spd = some sp := hsp
      subst h0
      dsimp only [positionStep]
      rw [if_pos hlt]
  constructor
  · rw [hstep]
    exact ⟨commitGate_lastValid { s with lastValidHeading := h } h,
      fun hg => commitGate_commit { s with lastValidHeading := h } h hg,
      fun hg => commitGate_keep { s with lastValidHeading := h } h hg⟩
  · intro t hs'
    obtain ⟨en, ch, lkp, st, pr⟩ := t
    rcases hs' with hnone | ⟨sp, hsp, hlt⟩
    · have h0 : spd = Option.none := hnone
      subst h0
      cases en <;> rfl
    · have h0 : spd = some sp := hsp
      subst h0
      dsimp only [sPositionStep, setStatusS, rotateMapS]
      rw [if_pos hlt]
      cases en <;> rfl

/-- Witness for C2 at a concrete input: initial state, a sample with heading
`47` and speed `2`. -/
theorem gps_heading_adoption_witness :
    (Coords.mk 0 0 (some 47) (some 2)).heading = some 47 ∧
      ((Coords.mk 0 0 (some 47) (some 2)).speed = Option.none ∨
        ∃ sp, (Coords.mk 0 0 (some 47) (some 2)).speed = some sp ∧
          (0.3 : ℝ) < sp) ∧
      (((positionStep initTU (Coords.mk 0 0 (some 47) (some 2))).1.lastValidHeading = 47 ∧
          (3 < |(47 : ℝ) - initTU.currentHeading| →
            (positionStep initTU (Coords.mk 0 0 (some 47) (some 2))).1.currentHeading = 47) ∧
          (¬ 3 < |(47 : ℝ) - initTU.currentHeading| →
            (positionStep initTU (Coords.mk 0 0 (some 47) (some 2))).1.currentHeading =
              initTU.currentHeading)) ∧
        ∀ t : SState,
          ((Coords.mk 0 0 (some 47) (some 2)).speed = Option.none ∨
            ∃ sp, (Coords.mk 0 0 (some 47) (some 2)).speed = some sp ∧
              (0.5 : ℝ) < sp) →
            (sPositionStep t (Coords.mk 0 0 (some 47) (some 2))).currentHeading = 47) :=
  ⟨rfl, Or.inr ⟨2, rfl, by norm_num⟩,
    gps_heading_adoption initTU (Coords.mk 0 0 (some 47) (some 2)) 47 rfl
      (Or.inr ⟨2, rfl, by norm_num⟩)⟩

/-- Claim C5: the geolocation error callbacks of both scripts report
`GPS Error` on the status sink and leave the committed heading (and the
cached last valid heading) untouched; in particular a heading committed at
`80°` remains `80°`. -/
theorem gps_error_preserves_heading (s : TUState) (t : SState) :
    (errorStep s).currentHeading = s.currentHeading ∧
      (errorStep s).lastValidHeading = s.lastValidHeading ∧
      (errorStep s).status = Status.gpsError ∧
      (sErrorStep t).currentHeading = t.currentHeading ∧
      (sErrorStep t).status = Status.gpsError ∧
      (errorStep { s with currentHeading := 80 }).currentHeading = 80 :=
  ⟨rfl, rfl, rfl, rfl, rfl, rfl⟩

/-- Claim C3 (amended): in `track_up_mode.js` a candidate heading is
committed exactly when it differs from the committed heading by more than 3
degrees, otherwise the committed heading is retained, and the sample stream
with headings `[10, 11, 50]` at speed `2.0` yields the committed heading
sequence `[10, 10, 50]`.  (`simple_track_up.js` has no jitter gate; see its
counterexample.) -/
theorem jitter_gate_trackup :
    (∀ (s : TUState) (nh : ℝ),
        (3 < |nh - s.currentHeading| →
          (commitGate s nh).currentHeading = nh) ∧
        (¬ 3 < |nh - s.currentHeading| →
          (commitGate s nh).currentHeading = s.currentHeading)) ∧
      (runTU [Event.pos ⟨0, 0, some 10, some 2⟩]).currentHeading = 10 ∧
      (runTU [Event.pos ⟨0, 0, some 10, some 2⟩,
        Event.pos ⟨0, 0, some 11, some 2⟩]).currentHeading = 10 ∧
      (runTU [Event.pos ⟨0, 0, some 10, some 2⟩,
        Event.pos ⟨0, 0, some 11, some 2⟩,
        Event.pos ⟨0, 0, some 50, some 2⟩]).currentHeading = 50 := by
  have h10 : (3 : ℝ) < |(10 : ℝ) - 0| := by
    rw [sub_zero, abs_of_nonneg (by norm_num : (0 : ℝ) ≤ 10)]
    norm_num
  have h11 : ¬ (3 : ℝ) < |(11 : ℝ) - 10| := by
    rw [show (11 : ℝ) - 10 = 1 by norm_num, abs_one]
    norm_num
  have h50 : (3 : ℝ) < |(50 : ℝ) - 10| := by
    rw [show (50 : ℝ) - 10 = 40 by norm_num,
      abs_of_nonneg (by norm_num : (0 : ℝ) ≤ 40)]
    norm_num
  have e1 : tuStep initTU (Event.pos ⟨0, 0, some 10, some 2⟩) =
      { trackUpMode := false, mapRotationEnabled := false, currentHeading := 10,
        lastValidHeading := 10, status := Status.blank, pres := initPres } := by
    dsimp only [tuStep, positionStep, commitGate, initTU, cond]
    rw [if_pos (by norm_num : (0.3 : ℝ) < 2), if_pos h10]
  have e2 : tuStep
      { trackUpMode := false, mapRotationEnabled := false, currentHeading := 10,
        lastValidHeading := 10, status := Status.blank, pres := initPres }
      (Event.pos ⟨0, 0, some 11, some 2⟩) =
      { trackUpMode := false, mapRotationEnabled := false, currentHeading := 10,
        lastValidHeading := 11, status := Status.blank, pres := initPres } := by
    dsimp only [tuStep, positionStep, commitGate, cond]
    rw [if_pos (by norm_num : (0.3 : ℝ) < 2), if_neg h11]
  have e3 : tuStep
      { trackUpMode := false, mapRotationEnabled := false, currentHeading := 10,
        lastValidHeading := 11, status := Status.blank, pres := initPres }
      (Event.pos ⟨0, 0, some 50, some 2⟩) =
      { trackUpMode := false, mapRotationEnabled := false, currentHeading := 50,
        lastValidHeading := 50, status := Status.blank, pres := initPres } := by
    dsimp only [tuStep, positionStep, commitGate, cond]
    rw [if_pos (by norm_num : (0.3 : ℝ) < 2), if_pos h50]
  refine ⟨fun s nh => ⟨commitGate_commit s nh, commitGate_keep s nh⟩, ?_, ?_, ?_⟩
  · dsimp only [runTU, List.foldl]
    rw [e1]
  · dsimp only [runTU, List.foldl]
    rw [e1, e2]
  · dsimp only [runTU, List.foldl]
    rw [e1, e2, e3]

/-- Claim C3 counterexample: `simple_track_up.js` commits a new heading of
`11°` coming after a committed `10°`, although the difference is only `1°`
(not more than 3) — it has no jitter gate, so the claimed commit-iff
condition fails there (and its committed sequence for `[10, 11, 50]` starts
`[10, 11, ...]`, not `[10, 10, ...]`). -/
theorem simple_no_jitter_gate :
    (sPositionStep (sPositionStep initS ⟨0, 0, some 10, some 2⟩)
        ⟨0, 0, some 11, some 2⟩).currentHeading = 11 ∧
      (sPositionStep initS ⟨0, 0, some 10, some 2⟩).currentHeading = 10 ∧
      ¬ (3 : ℝ) < |(11 : ℝ) - 10| ∧ (11 : ℝ) ≠ 10 := by
  have s1 : sPositionStep initS ⟨0, 0, some 10, some 2⟩ =
      { trackUpEnabled := false, currentHeading := 10,
        lastKnownPosition := some (0, 0), status := Status.headingDeg 10,
        pres := initSPres } := by
    dsimp only [sPositionStep, setStatusS, rotateMapS, initS, cond]
    rw [if_pos (by norm_num : (0.5 : ℝ) < 2)]
  refine ⟨?_, ?_, ?_, by norm_num⟩
  · rw [s1]
    dsimp only [sPositionStep, setStatusS, rotateMapS, cond]
    rw [if_pos (by norm_num : (0.5 : ℝ) < 2)]
  · rw [s1]
  · rw [show (11 : ℝ) - 10 = 1 by norm_num, abs_one]
    norm_num

/-- Claim C6: with rotation enabled, `track_up_mode.js` sets the map
surface transform to a rotation by the negated heading composed with the
uniform scale `1.1 > 1`, and gives each listed overlay the inverse
transform, rotation by the heading with the reciprocal scale, so that
composing the surface and overlay transforms yields the identity;
`simple_track_up.js` does the same with scale `1.5`. -/
theorem rotation_transform_inverse (s : TUState) (t : SState)
    (hs : s.trackUpMode = true) (ht : t.trackUpEnabled = true) :
    ((updateMapRotation s).pres.mapContainer =
        Css.rs (-s.currentHeading) 1.1 ∧
      (1 : ℝ) < 1.1 ∧
      (updateMapRotation s).pres.zoomControl =
        Css.rs s.currentHeading (1 / 1.1) ∧
      (updateMapRotation s).pres.attribution =
        Css.rs s.currentHeading (1 / 1.1) ∧
      (updateMapRotation s).pres.customIndicator =
        Css.rs s.currentHeading (1 / 1.1) ∧
      (updateMapRotation s).pres.markerIcon =
        Css.rs s.currentHeading (1 / 1.1) ∧
      Css.comp (Css.rs (-s.currentHeading) 1.1)
        (Css.rs s.currentHeading (1 / 1.1)) = Css.rs 0 1) ∧
    ((rotateMapS t).pres.mapContainer = Css.rs (-t.currentHeading) 1.5 ∧
      (1 : ℝ) < 1.5 ∧
      (rotateMapS t).pres.zoomControl = Css.rs t.currentHeading (1 / 1.5) ∧
      (rotateMapS t).pres.attribution = Css.rs t.currentHeading (1 / 1.5) ∧
      Css.comp (Css.rs (-t.currentHeading) 1.5)
        (Css.rs t.currentHeading (1 / 1.5)) = Css.rs 0 1) := by
  have hcomp1 : Css.comp (Css.rs (-s.currentHeading) 1.1)
      (Css.rs s.currentHeading (1 / 1.1)) = Css.rs 0 1 := by
    dsimp only [Css.comp]
    rw [show -s.currentHeading + s.currentHeading = 0 by ring,
      show (1.1 : ℝ) * (1 / 1.1) = 1 by norm_num]
  have hcomp2 : Css.comp (Css.rs (-t.currentHeading) 1.5)
      (Css.rs t.currentHeading (1 / 1.5)) = Css.rs 0 1 := by
    dsimp only [Css.comp]
    rw [show -t.currentHeading + t.currentHeading = 0 by ring,
      show (1.5 : ℝ) * (1 / 1.5) = 1 by norm_num]
  constructor
  · unfold updateMapRotation
    rw [hs]
    exact ⟨rfl, by norm_num, rfl, rfl, rfl, rfl, hcomp1⟩
  · unfold rotateMapS
    rw [ht]
    exact ⟨rfl, by norm_num, rfl, rfl, hcomp2⟩

/-- Witness for C6 at committed heading `47` with rotation enabled in both
scripts. -/
theorem rotation_transform_inverse_witness :
    ({ initTU with trackUpMode := true, currentHeading := 47 } :
        TUState).trackUpMode = true ∧
      ({ initS with trackUpEnabled := true, currentHeading := 47 } :
        SState).trackUpEnabled = true ∧
      (((updateMapRotation
            { initTU with trackUpMode := true, currentHeading := 47 }).pres.mapContainer =
          Css.rs (-(47 : ℝ)) 1.1 ∧
        (1 : ℝ) < 1.1 ∧
        (updateMapRotation
            { initTU with trackUpMode := true, currentHeading := 47 }).pres.zoomControl =
          Css.rs 47 (1 / 1.1) ∧
        (updateMapRotation
            { initTU with trackUpMode := true, currentHeading := 47 }).pres.attribution =
          Css.rs 47 (1 / 1.1) ∧
        (updateMapRotation
            { initTU with trackUpMode := true, currentHeading := 47 }).pres.customIndicator =
          Css.rs 47 (1 / 1.1) ∧
        (updateMapRotation
            { initTU with trackUpMode := true, currentHeading := 47 }).pres.markerIcon =
          Css.rs 47 (1 / 1.1) ∧
        Css.comp (Css.rs (-(47 : ℝ)) 1.1) (Css.rs 47 (1 / 1.1)) = Css.rs 0 1) ∧
      ((rotateMapS
            { initS with trackUpEnabled := true, currentHeading := 47 }).pres.mapContainer =
          Css.rs (-(47 : ℝ)) 1.5 ∧
        (1 : ℝ) < 1.5 ∧
        (rotateMapS
            { initS with trackUpEnabled := true, currentHeading := 47 }).pres.zoomControl =
          Css.rs 47 (1 / 1.5) ∧
        (rotateMapS
            { initS with trackUpEnabled := true, currentHeading := 47 }).pres.attribution =
          Css.rs 47 (1 / 1.5) ∧
        Css.comp (Css.rs (-(47 : ℝ)) 1.5) (Css.rs 47 (1 / 1.5)) = Css.rs 0 1)) :=
  ⟨rfl, rfl,
    rotation_transform_inverse
      { initTU with trackUpMode := true, currentHeading := 47 }
      { initS with trackUpEnabled := true, currentHeading := 47 } rfl rfl⟩

/-- Claim C7 (amended): disabling rotation reverts the map surface
transform to identity, and in `simple_track_up.js` every overlay it rotates
is also reverted to identity; in `track_up_mode.js` the reset reverts the
control and popup overlays to `rotate(0deg) scale(1)` and the custom
indicator to `none`, but not the plain marker icons its rotation update
rotated (see the counterexample).  Both resets are idempotent and safe to
call when no rotation was ever applied. -/
theorem reset_identity_idempotent (p : TUPres) (t : SState) :
    (resetTUPres p).mapContainer.isId ∧
      (resetTUPres p).zoomControl.isId ∧
      (resetTUPres p).attribution.isId ∧
      (resetTUPres p).popup.isId ∧
      (resetTUPres p).customIndicator.isId ∧
      resetTUPres (resetTUPres p) = resetTUPres p ∧
      (resetTUPres initPres).markerIcon.isId ∧
      (resetRotationS t).pres.mapContainer.isId ∧
      (resetRotationS t).pres.zoomControl.isId ∧
      (resetRotationS t).pres.attribution.isId ∧
      resetRotationS (resetRotationS t) = resetRotationS t :=
  ⟨trivial, ⟨rfl, rfl⟩, ⟨rfl, rfl⟩, ⟨rfl, rfl⟩, trivial, rfl, trivial,
    trivial, trivial, trivial, rfl⟩

/-- Claim C7 counterexample: after rotating at committed heading `47°`,
`resetMapRotation` of `track_up_mode.js` leaves the plain
`.leaflet-marker-icon` overlay at `rotate(47deg) scale(1/1.1)` — not the
identity — because the reset addresses `.leaflet-control`/`.leaflet-popup`
while the rotation update addressed `.leaflet-marker-icon`. -/
theorem reset_misses_marker_icons :
    (resetTUPres
        (updateMapRotation
          { initTU with trackUpMode := true, currentHeading := 47 }).pres).markerIcon =
      Css.rs 47 (1 / 1.1) ∧
      ¬ (Css.rs (47 : ℝ) (1 / 1.1)).isId := by
  constructor
  · rfl
  · intro h
    exact absurd h.1 (by norm_num)

/-- Claim C8 (code bug): during an active rotation update at committed
heading `90°`, `updateMapRotation` includes `.custom-location-indicator` in
its counter-rotation list, so the custom location indicator receives
`rotate(90deg) scale(1/1.1)` — not the identity transform claimed by the
spec and by the script's own protection code in
`updateUIElementsRotation`. -/
theorem custom_indicator_rotated_bug :
    (updateMapRotation
        { initTU with trackUpMode := true, currentHeading := 90 }).pres.customIndicator =
      Css.rs 90 (1 / 1.1) ∧
      ¬ (Css.rs (90 : ℝ) (1 / 1.1)).isId := by
  constructor
  · rfl
  · intro h
    exact absurd h.1 (by norm_num)

/-- Claim C9 (amended): the compass handler of `track_up_mode.js` supplies
a heading only when the committed heading is exactly `0` (its initial
value); whenever the committed heading is nonzero, a device-orientation
event leaves the whole state unchanged. -/
theorem compass_only_when_heading_zero (s : TUState) (a : Option ℝ)
    (h : s.currentHeading ≠ 0) : compassStep s a = s := by
  cases a with
  | none => rfl
  | some x =>
      dsimp only [compassStep]
      rw [if_neg (fun hc => h hc.2)]

/-- Witness for C9 at committed heading `5` and a compass event with alpha
`90`. -/
theorem compass_only_when_heading_zero_witness :
    ({ initTU with currentHeading := 5 } : TUState).currentHeading ≠ 0 ∧
      compassStep { initTU with currentHeading := 5 } (some 90) =
        { initTU with currentHeading := 5 } :=
  ⟨show (5 : ℝ) ≠ 0 by norm_num,
    compass_only_when_heading_zero { initTU with currentHeading := 5 }
      (some 90) (show (5 : ℝ) ≠ 0 by norm_num)⟩

/-- Claim C9 counterexample: GPS samples commit the heading `10°` and then
`0°` (travel due north, Method 1), so a GPS-derived heading has been
established; a subsequent device-orientation event with alpha `90` then
changes the committed heading to `270°`, because the handler's guard
`currentHeading === 0` cannot distinguish an established `0°` GPS heading
from the initial unset value. -/
theorem compass_overrides_gps_zero :
    (runTU [Event.pos ⟨0, 0, some 10, some 2⟩,
      Event.pos ⟨0, 0, some 0, some 2⟩]).currentHeading = 0 ∧
      (runTU [Event.pos ⟨0, 0, some 10, some 2⟩]).currentHeading = 10 ∧
      (runTU [Event.pos ⟨0, 0, some 10, some 2⟩,
        Event.pos ⟨0, 0, some 0, some 2⟩, Event.toggle true,
        Event.orient (some 90)]).currentHeading = 270 ∧
      (270 : ℝ) ≠ 0 := by
  have h10 : (3 : ℝ) < |(10 : ℝ) - 0| := by
    rw [sub_zero, abs_of_nonneg (by norm_num : (0 : ℝ) ≤ 10)]
    norm_num
  have h0 : (3 : ℝ) < |(0 : ℝ) - 10| := by
    rw [show (0 : ℝ) - 10 = -10 by norm_num, abs_neg,
      abs_of_nonneg (by norm_num : (0 : ℝ) ≤ 10)]
    norm_num
  have hm : jsMod ((360 : ℝ) - 90) 360 = 270 := by
    rw [show (360 : ℝ) - 90 = 270 by norm_num]
    unfold jsMod
    rw [jsTrunc_of_nonneg (by norm_num : (0 : ℝ) ≤ 270 / 360)]
    rw [show ⌊(270 : ℝ) / 360⌋ = 0 by
      rw [Int.floor_eq_iff]
      constructor <;> norm_num]
    norm_num
  have e1 : tuStep initTU (Event.pos ⟨0, 0, some 10, some 2⟩) =
      { trackUpMode := false, mapRotationEnabled := false, currentHeading := 10,
        lastValidHeading := 10, status := Status.blank, pres := initPres } := by
    dsimp only [tuStep, positionStep, commitGate, initTU, cond]
    rw [if_pos (by norm_num : (0.3 : ℝ) < 2), if_pos h10]
  have e2 : tuStep
      { trackUpMode := false, mapRotationEnabled := false, currentHeading := 10,
        lastValidHeading := 10, status := Status.blank, pres := initPres }
      (Event.pos ⟨0, 0, some 0, some 2⟩) =
      { trackUpMode := false, mapRotationEnabled := false, currentHeading := 0,
        lastValidHeading := 0, status := Status.blank, pres := initPres } := by
    dsimp only [tuStep, positionStep, commitGate, cond]
    rw [if_pos (by norm_num : (0.3 : ℝ) < 2), if_pos h0]
  have e3 : tuStep
      { trackUpMode := false, mapRotationEnabled := false, currentHeading := 0,
        lastValidHeading := 0, status := Status.blank, pres := initPres }
      (Event.toggle true) =
      { trackUpMode := true, mapRotationEnabled := true, currentHeading := 0,
        lastValidHeading := 0, status := Status.trackUpActive,
        pres :=
          { mapContainer := Css.rs (-(0 : ℝ)) 1.1
            zoomControl := Css.rs 0 (1 / 1.1)
            attribution := Css.rs 0 (1 / 1.1)
            customIndicator := Css.rs 0 (1 / 1.1)
            markerIcon := Css.rs 0 (1 / 1.1)
            popup := Css.none } } := by
    dsimp only [tuStep, toggleStep, setStatus, updateMapRotation, initPres, cond]
  have e4 : tuStep
      { trackUpMode := true, mapRotationEnabled := true, currentHeading := 0,
        lastValidHeading := 0, status := Status.trackUpActive,
        pres :=
          { mapContainer := Css.rs (-(0 : ℝ)) 1.1
            zoomControl := Css.rs 0 (1 / 1.1)
            attribution := Css.rs 0 (1 / 1.1)
            customIndicator := Css.rs 0 (1 / 1.1)
            markerIcon := Css.rs 0 (1 / 1.1)
            popup := Css.none } }
      (Event.orient (some 90)) =
      { trackUpMode := true, mapRotationEnabled := true, currentHeading := 270,
        lastValidHeading := 0, status := Status.trackUpActive,
        pres :=
          { mapContainer := Css.rs (-(270 : ℝ)) 1.1
            zoomControl := Css.rs 270 (1 / 1.1)
            attribution := Css.rs 270 (1 / 1.1)
            customIndicator := Css.rs 270 (1 / 1.1)
            markerIcon := Css.rs 270 (1 / 1.1)
            popup := Css.none } } := by
    dsimp only [tuStep, compassStep, updateMapRotation, cond]
    rw [if_pos ⟨rfl, rfl⟩, hm]
  refine ⟨?_, ?_, ?_, by norm_num⟩
  · dsimp only [runTU, List.foldl]
    rw [e1, e2]
  · dsimp only [runTU, List.foldl]
    rw [e1]
  · dsimp only [runTU, List.foldl]
    rw [e1, e2, e3, e4]

/-- Claim C10 (amended): under strict mode every successful position
callback of `track_up_mode.js` raises a `ReferenceError` on the undeclared
variable `lastPosition` — at the final `lastPosition = {...}` assignment
(after any heading commit) when the sample carries a valid numeric heading,
and at the `lastPosition` read guarding Method 2 otherwise, in which case no
state is mutated; consequently Method 2 never sees a stored prior position
and never produces a heading. -/
theorem position_callback_reference_error (s : TUState) (c : Coords) :
    (positionStep s c).2 ≠ Option.none ∧
      ((positionStep s c).2 = some JsErr.lastPosAssign ↔
        c.heading ≠ Option.none) ∧
      (c.heading = Option.none → (positionStep s c).1 = s) := by
  obtain ⟨lat, lng, hd, spd⟩ := c
  cases hd with
  | none =>
      refine ⟨fun h => Option.noConfusion h, ⟨?_, ?_⟩, fun _ => rfl⟩
      · intro h
        exact absurd (Option.some.inj h) (fun hh => JsErr.noConfusion hh)
      · intro h
        exact absurd rfl h
  | some h =>
      cases spd with
      | none =>
          exact ⟨fun hh => Option.noConfusion hh,
            ⟨fun _ hc => Option.noConfusion hc, fun _ => rfl⟩,
            fun hc => Option.noConfusion hc⟩
      | some sp =>
          refine ⟨?_, ⟨fun _ hc => Option.noConfusion hc, fun _ => ?_⟩,
            fun hc => Option.noConfusion hc⟩
          · dsimp only [positionStep]
            split_ifs <;> exact fun hh => Option.noConfusion hh
          · dsimp only [positionStep]
            split_ifs <;> rfl

/-- Witness for C10 at the initial state and a sample with a valid heading. -/
theorem position_callback_reference_error_witness :
    (positionStep initTU ⟨0, 0, some 7, some 1⟩).2 ≠ Option.none ∧
      ((positionStep initTU ⟨0, 0, some 7, some 1⟩).2 =
          some JsErr.lastPosAssign ↔
        (Coords.mk 0 0 (some 7) (some 1)).heading ≠ Option.none) ∧
      ((Coords.mk 0 0 (some 7) (some 1)).heading = Option.none →
        (positionStep initTU ⟨0, 0, some 7, some 1⟩).1 = initTU) :=
  position_callback_reference_error initTU ⟨0, 0, some 7, some 1⟩

/-- Claim C10 counterexample: a successful position callback whose sample
has no GPS heading raises its `ReferenceError` at the `lastPosition` read
guarding Method 2 (line 102), not at the final `lastPosition` assignment,
leaving the state untouched. -/
theorem method2_error_at_read :
    positionStep initTU ⟨0, 0, Option.none, some 2⟩ =
        (initTU, some JsErr.method2Read) ∧
      JsErr.method2Read ≠ JsErr.lastPosAssign :=
  ⟨rfl, fun h => JsErr.noConfusion h⟩

/-!
Heading-range invariant machinery for claim C4.
-/

/-- Well-formed external inputs: the geolocation API delivers GPS headings
in `[0, 360)` and the `deviceorientation` API delivers `alpha` in
`[0, 360)`. -/
def EventWF : Event → Prop
  | Event.pos c => ∀ h, c.heading = some h → 0 ≤ h ∧ h < 360
  | Event.orient a => ∀ x, a = some x → 0 ≤ x ∧ x < 360
  | Event.posErr => True
  | Event.toggle _ => True

/-- Heading-range invariant of the `track_up_mode.js` state. -/
def headInv (s : TUState) : Prop :=
  0 ≤ s.currentHeading ∧ s.currentHeading < 360 ∧
    0 ≤ s.lastValidHeading ∧ s.lastValidHeading < 360

/-- Heading-range invariant of the `simple_track_up.js` state. -/
def headInvS (t : SState) : Prop :=
  0 ≤ t.currentHeading ∧ t.currentHeading < 360

theorem jsMod360_mem {a : ℝ} (ha : 0 ≤ a) :
    0 ≤ jsMod a 360 ∧ jsMod a 360 < 360 := by
  rw [jsMod_eq_mathMod ha (by norm_num)]
  exact ⟨mathMod_nonneg _ (by norm_num), mathMod_lt _ (by norm_num)⟩

theorem updateMapRotation_frame (s : TUState) :
    (updateMapRotation s).currentHeading = s.currentHeading ∧
      (updateMapRotation s).lastValidHeading = s.lastValidHeading := by
  obtain ⟨tm, mre, ch, lv, st, pr⟩ := s
  cases tm <;> exact ⟨rfl, rfl⟩

theorem rotateMapS_frame (t : SState) :
    (rotateMapS t).currentHeading = t.currentHeading ∧
      (rotateMapS t).lastKnownPosition = t.lastKnownPosition := by
  obtain ⟨en, ch, lkp, st, pr⟩ := t
  cases en <;> exact ⟨rfl, rfl⟩

theorem commitGate_inv {s : TUState} (hs : headInv s) {nh : ℝ}
    (h0 : 0 ≤ nh) (h1 : nh < 360) : headInv (commitGate s nh) := by
  obtain ⟨ha, hb, hc, hd⟩ := hs
  have hl := commitGate_lastValid s nh
  by_cases hg : 3 < |nh - s.currentHeading|
  · have hcm := commitGate_commit s nh hg
    exact ⟨by rw [hcm]; exact h0, by rw [hcm]; exact h1,
      by rw [hl]; exact hc, by rw [hl]; exact hd⟩
  · have hk := commitGate_keep s nh hg
    exact ⟨by rw [hk]; exact ha, by rw [hk]; exact hb,
      by rw [hl]; exact hc, by rw [hl]; exact hd⟩

theorem positionStep_inv {s : TUState} (hs : headInv s) {c : Coords}
    (hc : ∀ h, c.heading = some h → 0 ≤ h ∧ h < 360) :
    headInv (positionStep s c).1 := by
  obtain ⟨lat, lng, hd, spd⟩ := c
  cases hd with
  | none => exact hs
  | some h =>
      obtain ⟨hw0, hw1⟩ := hc h rfl
      have hinv' : headInv { s with lastValidHeading := h } :=
        ⟨hs.1, hs.2.1, hw0, hw1⟩
      cases spd with
      | none => exact commitGate_inv hinv' hw0 hw1
      | some sp =>
          by_cases hlt : (0.3 : ℝ) < sp
          · have heq : (positionStep s ⟨lat, lng, some h, some sp⟩).1 =
                commitGate { s with lastValidHeading := h } h := by
              dsimp only [positionStep]
              rw [if_pos hlt]
            rw [heq]
            exact commitGate_inv hinv' hw0 hw1
          · have heq : (positionStep s ⟨lat, lng, some h, some sp⟩).1 =
                commitGate s s.currentHeading := by
              dsimp only [positionStep]
              rw [if_neg hlt]
            rw [heq]
            exact commitGate_inv hs hs.1 hs.2.1

theorem compassStep_inv {s : TUState} (hs : headInv s) {a : Option ℝ}
    (ha : ∀ x, a = some x → 0 ≤ x ∧ x < 360) :
    headInv (compassStep s a) := by
  cases a with
  | none => exact hs
  | some x =>
      obtain ⟨hx0, hx1⟩ := ha x rfl
      dsimp only [compassStep]
      split_ifs with hg
      · have hj := jsMod360_mem (show (0 : ℝ) ≤ 360 - x by linarith)
        have hf := updateMapRotation_frame
          { s with currentHeading := jsMod (360 - x) 360 }
        exact ⟨by rw [hf.1]; exact hj.1, by rw [hf.1]; exact hj.2,
          by rw [hf.2]; exact hs.2.2.1, by rw [hf.2]; exact hs.2.2.2⟩
      · exact hs

theorem toggleStep_inv {s : TUState} (hs : headInv s) (b : Bool) :
    headInv (toggleStep s b) := by
  cases b with
  | false => exact ⟨hs.1, hs.2.1, hs.2.2.1, hs.2.2.2⟩
  | true =>
      dsimp only [toggleStep, cond]
      have hf := updateMapRotation_frame
        (setStatus { s with trackUpMode := true, mapRotationEnabled := true }
          Status.trackUpActive)
      exact ⟨by rw [hf.1]; exact hs.1, by rw [hf.1]; exact hs.2.1,
        by rw [hf.2]; exact hs.2.2.1, by rw [hf.2]; exact hs.2.2.2⟩

theorem tuStep_inv {s : TUState} (hs : headInv s) {e : Event}
    (he : EventWF e) : headInv (tuStep s e) := by
  cases e with
  | pos c => exact positionStep_inv hs he
  | posErr => exact ⟨hs.1, hs.2.1, hs.2.2.1, hs.2.2.2⟩
  | orient a => exact compassStep_inv hs he
  | toggle b => exact toggleStep_inv hs b

theorem sPositionStep_inv {t : SState} (ht : headInvS t) {c : Coords}
    (hc : ∀ h, c.heading = some h → 0 ≤ h ∧ h < 360) :
    headInvS (sPositionStep t c) := by
  obtain ⟨lat, lng, hd, spd⟩ := c
  obtain ⟨en, ch, lkp, st, pr⟩ := t
  cases hd with
  | some h =>
      obtain ⟨hw0, hw1⟩ := hc h rfl
      cases spd with
      | none => cases en <;> exact ⟨hw0, hw1⟩
      | some sp =>
          by_cases hlt : (0.5 : ℝ) < sp
          · have heq : (sPositionStep ⟨en, ch, lkp, st, pr⟩
                ⟨lat, lng, some h, some sp⟩).currentHeading = h := by
              dsimp only [sPositionStep, setStatusS, rotateMapS]
              rw [if_pos hlt]
              cases en <;> rfl
            exact ⟨by rw [heq]; exact hw0, by rw [heq]; exact hw1⟩
          · have heq : (sPositionStep ⟨en, ch, lkp, st, pr⟩
                ⟨lat, lng, some h, some sp⟩).currentHeading = ch := by
              dsimp only [sPositionStep, setStatusS, rotateMapS]
              rw [if_neg hlt]
            exact ⟨by rw [heq]; exact ht.1, by rw [heq]; exact ht.2⟩
  | none =>
      cases lkp with
      | none =>
          cases spd with
          | none => exact ⟨ht.1, ht.2⟩
          | some sp => exact ⟨ht.1, ht.2⟩
      | some lp =>
          cases spd with
          | none => exact ⟨ht.1, ht.2⟩
          | some sp =>
              by_cases hlt : (1 : ℝ) < sp
              · by_cases hsig : (0.0001 : ℝ) < |lat - lp.1| ∨
                    (0.0001 : ℝ) < |lng - lp.2|
                · have hb := simpleBearing_mem lp.1 lp.2 lat lng
                  have heq : (sPositionStep ⟨en, ch, some lp, st, pr⟩
                      ⟨lat, lng, Option.none, some sp⟩).currentHeading =
                      simpleBearing lp.1 lp.2 lat lng := by
                    dsimp only [sPositionStep, setStatusS, rotateMapS]
                    rw [if_pos hlt, if_pos hsig]
                    cases en <;> rfl
                  exact ⟨by rw [heq]; exact hb.1, by rw [heq]; exact hb.2⟩
                · have heq : (sPositionStep ⟨en, ch, some lp, st, pr⟩
                      ⟨lat, lng, Option.none, some sp⟩).currentHeading = ch := by
                    dsimp only [sPositionStep, setStatusS, rotateMapS]
                    rw [if_pos hlt, if_neg hsig]
                  exact ⟨by rw [heq]; exact ht.1, by rw [heq]; exact ht.2⟩
              · have heq : (sPositionStep ⟨en, ch, some lp, st, pr⟩
                    ⟨lat, lng, Option.none, some sp⟩).currentHeading = ch := by
                  dsimp only [sPositionStep, setStatusS, rotateMapS]
                  rw [if_neg hlt]
                exact ⟨by rw [heq]; exact ht.1, by rw [heq]; exact ht.2⟩

theorem sStep_inv {t : SState} (ht : headInvS t) {e : Event}
    (he : EventWF e) : headInvS (sStep t e) := by
  cases e with
  | pos c => exact sPositionStep_inv ht he
  | posErr => exact ⟨ht.1, ht.2⟩
  | orient a => exact ht
  | toggle b => cases b <;> exact ⟨ht.1, ht.2⟩

theorem foldl_tu_inv : ∀ (evs : List Event) (s : TUState), headInv s →
    (∀ e ∈ evs, EventWF e) → headInv (evs.foldl tuStep s)
  | [], _, hs, _ => hs
  | e :: evs, s, hs, hwf =>
      foldl_tu_inv evs (tuStep s e)
        (tuStep_inv hs (hwf e (List.mem_cons_self e evs)))
        (fun e' he' => hwf e' (List.mem_cons_of_mem e he'))

theorem foldl_s_inv : ∀ (evs : List Event) (t : SState), headInvS t →
    (∀ e ∈ evs, EventWF e) → headInvS (evs.foldl sStep t)
  | [], _, ht, _ => ht
  | e :: evs, t, ht, hwf =>
      foldl_s_inv evs (sStep t e)
        (sStep_inv ht (hwf e (List.mem_cons_self e evs)))
        (fun e' he' => hwf e' (List.mem_cons_of_mem e he'))

/-- Claim C4: over every sequence of well-formed position samples,
device-orientation events and toggle events, the committed heading of both
scripts stays in `[0, 360)` after every update (the geolocation and
orientation APIs deliver angles in `[0, 360)`), and no operation of the
Rotation Applier — applying or resetting the map rotation — mutates the
Heading State (committed heading, cached last valid heading, stored last
position). -/
theorem heading_invariant_and_applier_frame :
    (∀ evs : List Event, (∀ e ∈ evs, EventWF e) →
        headInv (runTU evs) ∧ headInvS (runS evs)) ∧
      (∀ s : TUState,
        (updateMapRotation s).currentHeading = s.currentHeading ∧
          (updateMapRotation s).lastValidHeading = s.lastValidHeading ∧
          (resetRotationTU s).currentHeading = s.currentHeading ∧
          (resetRotationTU s).lastValidHeading = s.lastValidHeading) ∧
      (∀ t : SState,
        (rotateMapS t).currentHeading = t.currentHeading ∧
          (rotateMapS t).lastKnownPosition = t.lastKnownPosition ∧
          (resetRotationS t).currentHeading = t.currentHeading ∧
          (resetRotationS t).lastKnownPosition = t.lastKnownPosition) := by
  refine ⟨fun evs hwf => ?_, fun s => ?_, fun t => ?_⟩
  · have h0 : headInv initTU :=
      ⟨le_refl 0, show (0 : ℝ) < 360 by norm_num, le_refl 0,
        show (0 : ℝ) < 360 by norm_num⟩
    have h0s : headInvS initS :=
      ⟨le_refl 0, show (0 : ℝ) < 360 by norm_num⟩
    exact ⟨foldl_tu_inv evs initTU h0 hwf, foldl_s_inv evs initS h0s hwf⟩
  · have hf := updateMapRotation_frame s
    exact ⟨hf.1, hf.2, rfl, rfl⟩
  · have hf := rotateMapS_frame t
    exact ⟨hf.1, hf.2, rfl, rfl⟩

/-- Witness for C4 on the one-sample event list with GPS heading `90` at
speed `2`. -/
theorem heading_invariant_witness :
    (∀ e ∈ [Event.pos ⟨0, 0, some 90, some 2⟩], EventWF e) ∧
      (headInv (runTU [Event.pos ⟨0, 0, some 90, some 2⟩]) ∧
        headInvS (runS [Event.pos ⟨0, 0, some 90, some 2⟩])) := by
  have hwf : ∀ e ∈ [Event.pos (⟨0, 0, some 90, some 2⟩ : Coords)], EventWF e := by
    intro e he
    rw [List.mem_singleton] at he
    subst he
    intro h hh
    cases hh
    norm_num
  exact ⟨hwf, heading_invariant_and_applier_frame.1 _ hwf⟩

end TrackUpModel

end
